import Mathlib

/-!
Verification of the core logic of the invoicing backend: the invoice state
machine, the totals calculation and the reminder decision procedure.

The embedding follows the dataclass model set of the repository
(`models/invoice.py`, `models/invoice_item.py`, `models/reminder.py`) and
the reminder service (`services/reminder_service.py`).

Modelling conventions:
- Timestamps (`datetime`) are whole days, modelled as `ℤ`; the difference
  `(now - due_date).days` becomes integer subtraction.
- Monetary amounts (Python `float`) are modelled as exact rationals `ℚ`;
  the source performs plain arithmetic with no rounding step, which the
  rational embedding reproduces exactly.
- Methods mutate `self`; the embedding passes the record explicitly and
  returns the updated record.  The `update()` bookkeeping call only bumps
  `updated_at`, which no claim mentions, so that field is omitted.
- A Python method whose body can raise is embedded in `Except PyError`;
  a method whose body contains no raise and calls nothing that raises is
  embedded as a total function (its exception-level view is `.ok`).
-/

namespace InvoiceApp

/-- Python exception kinds the embedded code can raise. -/
inductive PyError where
  | valueError
  | typeError
  | validationError
  | invalidTransition
deriving DecidableEq, Repr

/-- InvoiceStatus enum from `models/invoice.py` (lines 17-27).  Note: this
enum has exactly the five variants of the source; in particular there is
no REMINDER_SENT variant in this model set. -/
inductive InvoiceStatus where
  | DRAFT
  | SENT
  | PAID
  | OVERDUE
  | CANCELLED
deriving DecidableEq, Repr

/-- InvoiceItem from `models/invoice_item.py`: the fields the financial
logic reads (description, sku, etc. are irrelevant to every claim). -/
structure InvoiceItem where
  quantity : ℚ
  unit_price : ℚ
  total : ℚ
deriving DecidableEq, Repr

/-- InvoiceItem.calculate_total: `self.total = self.quantity * self.unit_price`. -/
def InvoiceItem.calculate_total (it : InvoiceItem) : InvoiceItem :=
  { it with total := it.quantity * it.unit_price }

/-- Constructing an item runs `__post_init__`, which calls `calculate_total`,
so a freshly constructed item always has `total = quantity * unit_price`. -/
def InvoiceItem.create (q p : ℚ) : InvoiceItem :=
  InvoiceItem.calculate_total { quantity := q, unit_price := p, total := 0 }

/-- InvoiceItem.update_quantity: raises ValueError when `quantity <= 0`,
otherwise stores the quantity and recalculates the total. -/
def InvoiceItem.update_quantity (q : ℚ) (it : InvoiceItem) : Except PyError InvoiceItem :=
  if q ≤ 0 then .error .valueError
  else .ok (InvoiceItem.calculate_total { it with quantity := q })

/-- InvoiceItem.update_unit_price: raises ValueError when `unit_price < 0`,
otherwise stores the price and recalculates the total. -/
def InvoiceItem.update_unit_price (p : ℚ) (it : InvoiceItem) : Except PyError InvoiceItem :=
  if p < 0 then .error .valueError
  else .ok (InvoiceItem.calculate_total { it with unit_price := p })

/-- Invoice from `models/invoice.py`: the fields read or written by the
state machine, the totals calculation and the reminder service. -/
structure Invoice where
  status : InvoiceStatus
  due_date : Option ℤ
  subtotal : ℚ
  vat_rate : ℚ
  vat_amount : ℚ
  discount_percentage : ℚ
  discount_amount : ℚ
  total : ℚ
  items : List InvoiceItem
  sent_at : Option ℤ
  paid_at : Option ℤ
  reminder_sent_at : List ℤ
deriving DecidableEq, Repr

/-- Invoice.calculate_totals (lines 101-117).  Faithful points: the
discount assignment is guarded by `if self.discount_percentage > 0`, so a
non-positive percentage leaves whatever value was already stored in
`discount_amount`; the taxable amount then subtracts that (possibly stale)
field; no rounding of any kind is performed. -/
def Invoice.calculate_totals (inv : Invoice) : Invoice :=
  let subtotal := (inv.items.map (fun it => it.total)).sum
  let discount_amount :=
    if inv.discount_percentage > 0 then subtotal * (inv.discount_percentage / 100)
    else inv.discount_amount
  let taxable_amount := subtotal - discount_amount
  let vat_amount := taxable_amount * (inv.vat_rate / 100)
  { inv with
    subtotal := subtotal
    discount_amount := discount_amount
    vat_amount := vat_amount
    total := taxable_amount + vat_amount }

/-- Exception-level view of calculate_totals: the method body contains no
raise and calls nothing that raises, so it always returns normally. -/
def Invoice.calculate_totalsE (inv : Invoice) : Except PyError Invoice :=
  .ok inv.calculate_totals

/-- Invoice.send (lines 119-124): only a DRAFT invoice transitions; for any
other status the body is skipped entirely (a silent no-op, no raise). -/
def Invoice.send (now : ℤ) (inv : Invoice) : Invoice :=
  if inv.status = .DRAFT then
    { inv with status := .SENT, sent_at := some now }
  else inv

/-- Exception-level view of send: the method body contains no raise. -/
def Invoice.sendE (now : ℤ) (inv : Invoice) : Except PyError Invoice :=
  .ok (inv.send now)

/-- Invoice.mark_as_paid (lines 126-130): unconditionally sets PAID and
`paid_at = now`; there is no guard of any kind. -/
def Invoice.mark_as_paid (now : ℤ) (inv : Invoice) : Invoice :=
  { inv with status := .PAID, paid_at := some now }

/-- Invoice.cancel (lines 132-135): unconditionally sets CANCELLED. -/
def Invoice.cancel (inv : Invoice) : Invoice :=
  { inv with status := .CANCELLED }

/-- Invoice.check_overdue (lines 137-149): flips SENT to OVERDUE when a due
date exists and is strictly before `now`, returning True; otherwise leaves
the invoice untouched and returns False. -/
def Invoice.check_overdue (now : ℤ) (inv : Invoice) : Invoice × Bool :=
  if inv.status = .SENT then
    match inv.due_date with
    | some d => if d < now then ({ inv with status := .OVERDUE }, true) else (inv, false)
    | none => (inv, false)
  else (inv, false)

/-- Invoice.record_reminder_sent (lines 151-154): appends `now` to the
reminder history.  It does not touch `status`. -/
def Invoice.record_reminder_sent (now : ℤ) (inv : Invoice) : Invoice :=
  { inv with reminder_sent_at := inv.reminder_sent_at ++ [now] }

/-- ReminderSettings from `models/reminder.py`: the fields the decision
procedure reads (subject/message templates only affect rendered text). -/
structure ReminderSettings where
  enabled : Bool
  reminder_days : List ℤ
deriving DecidableEq, Repr

/-- ReminderService._get_reminder_number (`services/reminder_service.py`,
lines 163-196).  Order of operations matches the source: the status check
comes first (so a non-OVERDUE invoice returns None before `due_date` is
touched); `datetime.now() - invoice.due_date` raises TypeError when
`due_date` is None; then the exhaustion check, the threshold lookup and
the threshold comparison. -/
def get_reminder_number (settings : ReminderSettings) (now : ℤ) (inv : Invoice) :
    Except PyError (Option ℕ) :=
  if inv.status ≠ .OVERDUE then .ok none
  else
    match inv.due_date with
    | none => .error .typeError
    | some d =>
      let days_overdue := now - d
      let reminders_sent := inv.reminder_sent_at.length
      if reminders_sent ≥ settings.reminder_days.length then .ok none
      else
        match settings.reminder_days.get? reminders_sent with
        | none => .ok none
        | some next_threshold =>
          if days_overdue < next_threshold then .ok none
          else .ok (some (reminders_sent + 1))

/-- Outcome of one iteration of the loop in process_reminders: exactly one
of the three counters is incremented for each invoice. -/
inductive Outcome where
  | sentOK
  | errored
  | skipped
deriving DecidableEq, Repr

/-- One iteration of the loop in ReminderService.process_reminders (lines
128-155).  Inside the try block the source first computes
`(datetime.now() - invoice.due_date).days` (TypeError when `due_date` is
None, caught by the except clause, counted as an error), then asks
`_get_reminder_number`; a truthy reminder number leads to `_send_reminder`,
whose boolean result decides between the sent and errors counters (that
helper catches its own exceptions and returns False); a falsy reminder
number counts as skipped.  `sendOk` is the oracle for the notifier result. -/
def processOne (settings : ReminderSettings) (now : ℤ) (sendOk : Invoice → Bool)
    (inv : Invoice) : Outcome :=
  match inv.due_date with
  | none => .errored
  | some _ =>
    match get_reminder_number settings now inv with
    | .error _ => .errored
    | .ok none => .skipped
    | .ok (some _) => if sendOk inv then .sentOK else .errored

/-- Result dictionary of process_reminders. -/
structure RemResults where
  processed : ℕ
  sent : ℕ
  errors : ℕ
  skipped : ℕ
  disabled : Bool
deriving DecidableEq, Repr

/-- ReminderService.process_reminders (lines 89-161).  When the settings of the owner have `enabled = False` it returns immediately with every counter
at 0 and `disabled = True`; otherwise `processed` is the number of overdue
invoices fetched and each loop iteration increments exactly one of the
three remaining counters, per `processOne`. -/
def process_reminders (settings : ReminderSettings) (now : ℤ) (sendOk : Invoice → Bool)
    (overdue_invoices : List Invoice) : RemResults :=
  if settings.enabled = false then
    { processed := 0, sent := 0, errors := 0, skipped := 0, disabled := true }
  else
    { processed := overdue_invoices.length
      sent := overdue_invoices.countP (fun i => processOne settings now sendOk i == .sentOK)
      errors := overdue_invoices.countP (fun i => processOne settings now sendOk i == .errored)
      skipped := overdue_invoices.countP (fun i => processOne settings now sendOk i == .skipped)
      disabled := false }

/-- A baseline invoice mirroring the dataclass defaults that the claims do
not constrain; concrete test inputs are built from it by record update. -/
def defaultInvoice : Invoice :=
  { status := .DRAFT
    due_date := some 0
    subtotal := 0
    vat_rate := 0
    vat_amount := 0
    discount_percentage := 0
    discount_amount := 0
    total := 0
    items := []
    sent_at := none
    paid_at := none
    reminder_sent_at := [] }

end InvoiceApp

namespace InvoiceApp

def s314 : ReminderSettings := { enabled := true, reminder_days := [3, 7, 14] }

def overdueBy (hist : List ℤ) : Invoice :=
  { defaultInvoice with status := .OVERDUE, due_date := some 0, reminder_sent_at := hist }

/-- C1: for every reminder settings object and every OVERDUE invoice with a due
date, the reminder-number decision returns None when the reminder history is at
least as long as the configured threshold list (exhausted) or when the days
overdue fall strictly below the next threshold (not due yet), and otherwise
returns the history length plus one (the 1-based reminder sequence number). -/
theorem C1_reminder_number (settings : ReminderSettings) (now d : ℤ) (inv : Invoice)
    (hstat : inv.status = .OVERDUE) (hdue : inv.due_date = some d) :
    (inv.reminder_sent_at.length ≥ settings.reminder_days.length →
      get_reminder_number settings now inv = .ok none) ∧
    (∀ t, settings.reminder_days[inv.reminder_sent_at.length]? = some t →
      now - d < t → get_reminder_number settings now inv = .ok none) ∧
    (∀ t, settings.reminder_days[inv.reminder_sent_at.length]? = some t →
      t ≤ now - d →
      get_reminder_number settings now inv = .ok (some (inv.reminder_sent_at.length + 1))) := by
  refine ⟨fun hge => ?_, fun t ht hlt => ?_, fun t ht hge2 => ?_⟩ <;>
    simp only [get_reminder_number, hstat, hdue, ne_eq, not_true_eq_false, if_false,
      ite_false, reduceIte]
  · simp [hge]
  · obtain ⟨hk, -⟩ := List.getElem?_eq_some.mp ht
    rw [if_neg (by omega)]
    simp only [List.get?_eq_getElem?, ht]
    rw [if_pos hlt]
  · obtain ⟨hk, -⟩ := List.getElem?_eq_some.mp ht
    rw [if_neg (by omega)]
    simp only [List.get?_eq_getElem?, ht]
    rw [if_neg (by omega)]

/-- Witness for C1, instantiating the four concrete examples of the claim:
reminder_days = [3, 7, 14], due date 0; 5 days overdue with 0 reminders sent
gives 1; 5 days overdue with 1 sent gives None; 8 days overdue with 1 sent
gives 2; 20 days overdue with 3 sent gives None. -/
theorem C1_reminder_number_witness :
    get_reminder_number s314 5 (overdueBy []) = .ok (some 1) ∧
    get_reminder_number s314 5 (overdueBy [1]) = .ok none ∧
    get_reminder_number s314 8 (overdueBy [1]) = .ok (some 2) ∧
    get_reminder_number s314 20 (overdueBy [1, 2, 3]) = .ok none := by
  refine ⟨?_, ?_, ?_, ?_⟩
  · have h := (C1_reminder_number s314 5 0 (overdueBy []) rfl rfl).2.2 3 (by rfl) (by omega)
    simpa using h
  · exact (C1_reminder_number s314 5 0 (overdueBy [1]) rfl rfl).2.1 7 (by rfl) (by omega)
  · have h := (C1_reminder_number s314 8 0 (overdueBy [1]) rfl rfl).2.2 7 (by rfl) (by omega)
    simpa using h
  · exact (C1_reminder_number s314 20 0 (overdueBy [1, 2, 3]) rfl rfl).1 (by simp [s314, overdueBy])


def paidInvoice : Invoice := { defaultInvoice with status := .PAID, paid_at := some 1 }

def cancelledInvoice : Invoice := { defaultInvoice with status := .CANCELLED }

/-- Counterexample to C2: cancel() on a PAID invoice is not rejected - it
changes the status to CANCELLED; mark_as_paid() on a CANCELLED invoice changes
the status to PAID and overwrites paid_at.  No transition guard exists. -/
theorem C2_terminal_counterexample :
    paidInvoice.cancel.status = .CANCELLED ∧
    paidInvoice.cancel.status ≠ paidInvoice.status ∧
    (cancelledInvoice.mark_as_paid 3).status = .PAID ∧
    (cancelledInvoice.mark_as_paid 3).status ≠ cancelledInvoice.status ∧
    (cancelledInvoice.mark_as_paid 3).paid_at = some 3 := by
  refine ⟨rfl, ?_, rfl, ?_, rfl⟩ <;> simp [Invoice.cancel, Invoice.mark_as_paid,
    paidInvoice, cancelledInvoice, defaultInvoice]

/-- C2 amended: from a terminal state (PAID or CANCELLED) mark_as_paid() and
cancel() succeed unconditionally - mark_as_paid() sets status PAID and
paid_at = now, cancel() sets status CANCELLED - raising nothing (no
InvalidTransitionError exists in the source); both leave the reminder history
unchanged, and send() and check_overdue() are silent no-ops. -/
theorem C2_terminal_unguarded (inv : Invoice) (now : ℤ)
    (hterm : inv.status = .PAID ∨ inv.status = .CANCELLED) :
    (inv.mark_as_paid now).status = .PAID ∧
    (inv.mark_as_paid now).paid_at = some now ∧
    (inv.mark_as_paid now).reminder_sent_at = inv.reminder_sent_at ∧
    inv.cancel.status = .CANCELLED ∧
    inv.cancel.paid_at = inv.paid_at ∧
    inv.cancel.reminder_sent_at = inv.reminder_sent_at ∧
    inv.send now = inv ∧
    inv.check_overdue now = (inv, false) := by
  obtain h | h := hterm <;>
    simp [Invoice.mark_as_paid, Invoice.cancel, Invoice.send, Invoice.check_overdue, h]

/-- Witness for C2 amended at a concrete PAID invoice. -/
theorem C2_terminal_unguarded_witness :
    (paidInvoice.mark_as_paid 9).status = .PAID ∧ paidInvoice.send 9 = paidInvoice :=
  ⟨(C2_terminal_unguarded paidInvoice 9 (Or.inl rfl)).1,
   (C2_terminal_unguarded paidInvoice 9 (Or.inl rfl)).2.2.2.2.2.2.1⟩

def exampleInvoice : Invoice :=
  { defaultInvoice with
    items := [InvoiceItem.create 2 10, InvoiceItem.create 1 5]
    discount_percentage := 10
    vat_rate := 20 }

/-- C3: for every invoice whose stored item totals are consistent (which every
item constructor and mutator guarantees), calculate_totals() makes subtotal the
sum of quantity times unit price over the items, vat_amount the taxable amount
(subtotal minus discount_amount) times vat_rate over 100, and total the taxable
amount plus vat_amount; on items (2 x 10.00, 1 x 5.00) with discount 10 percent
and tax 20 percent this gives subtotal 25, discount 2.50, tax 4.50, total 27. -/
theorem C3_totals (inv : Invoice)
    (hitems : ∀ it ∈ inv.items, it.total = it.quantity * it.unit_price) :
    inv.calculate_totals.subtotal =
      (inv.items.map (fun it => it.quantity * it.unit_price)).sum ∧
    inv.calculate_totals.vat_amount =
      (inv.calculate_totals.subtotal - inv.calculate_totals.discount_amount) *
        inv.vat_rate / 100 ∧
    inv.calculate_totals.total =
      (inv.calculate_totals.subtotal - inv.calculate_totals.discount_amount) +
        inv.calculate_totals.vat_amount ∧
    (0 < inv.discount_percentage →
      inv.calculate_totals.discount_amount =
        inv.calculate_totals.subtotal * inv.discount_percentage / 100) ∧
    exampleInvoice.calculate_totals.subtotal = 25 ∧
    exampleInvoice.calculate_totals.discount_amount = 5 / 2 ∧
    exampleInvoice.calculate_totals.vat_amount = 9 / 2 ∧
    exampleInvoice.calculate_totals.total = 27 := by
  have hmap : inv.items.map (fun it => it.total) =
      inv.items.map (fun it => it.quantity * it.unit_price) :=
    List.map_congr_left hitems
  refine ⟨?_, ?_, ?_, fun hpos => ?_, ?_, ?_, ?_, ?_⟩
  · simp [Invoice.calculate_totals, hmap]
  · simp [Invoice.calculate_totals, mul_div_assoc]
  · simp [Invoice.calculate_totals]
  · simp [Invoice.calculate_totals, hpos, mul_div_assoc]
  all_goals norm_num [exampleInvoice, defaultInvoice, Invoice.calculate_totals,
    InvoiceItem.create, InvoiceItem.calculate_total]

/-- Witness for C3 at the concrete example invoice of the claim. -/
theorem C3_totals_witness :
    (∀ it ∈ exampleInvoice.items, it.total = it.quantity * it.unit_price) ∧
    exampleInvoice.calculate_totals.subtotal = 25 ∧
    exampleInvoice.calculate_totals.total = 27 := by
  have hitems : ∀ it ∈ exampleInvoice.items, it.total = it.quantity * it.unit_price := by
    intro it hit
    simp [exampleInvoice, defaultInvoice, InvoiceItem.create,
      InvoiceItem.calculate_total] at hit
    obtain h | h := hit <;> simp [h]
  have h := C3_totals exampleInvoice hitems
  exact ⟨hitems, h.2.2.2.2.1, h.2.2.2.2.2.2.2⟩

def staleDiscountInvoice : Invoice :=
  { defaultInvoice with
    items := [InvoiceItem.create 2 10]
    discount_percentage := 0
    discount_amount := 5 }

/-- Counterexample to C4: an invoice with discount_percentage = 0 but a stale
stored discount_amount = 5 keeps discount_amount = 5 after calculate_totals(),
although subtotal times percentage over 100 is 0 - the guard
`if self.discount_percentage > 0` skips the assignment. -/
theorem C4_stale_discount_counterexample :
    staleDiscountInvoice.calculate_totals.discount_amount = 5 ∧
    staleDiscountInvoice.calculate_totals.subtotal *
      staleDiscountInvoice.discount_percentage / 100 = 0 ∧
    (5 : ℚ) ≠ 0 := by
  refine ⟨?_, ?_, by norm_num⟩ <;>
    norm_num [staleDiscountInvoice, defaultInvoice, Invoice.calculate_totals,
      InvoiceItem.create, InvoiceItem.calculate_total]

/-- C4 amended: after calculate_totals() the discount_amount equals
subtotal times discount_percentage over 100 only when the percentage is
strictly positive; when the percentage is 0 (or negative) the previously
stored discount_amount is left unchanged, so it is 0 only if it already was. -/
theorem C4_discount_amount (inv : Invoice) :
    (0 < inv.discount_percentage →
      inv.calculate_totals.discount_amount =
        inv.calculate_totals.subtotal * inv.discount_percentage / 100) ∧
    (inv.discount_percentage ≤ 0 →
      inv.calculate_totals.discount_amount = inv.discount_amount) := by
  constructor
  · intro h
    simp [Invoice.calculate_totals, h, mul_div_assoc]
  · intro h
    simp [Invoice.calculate_totals, not_lt.mpr h]

/-- Witness for C4 amended: positive-percentage branch at the example invoice
and stale branch at the zero-percentage invoice. -/
theorem C4_discount_amount_witness :
    exampleInvoice.calculate_totals.discount_amount =
      exampleInvoice.calculate_totals.subtotal * exampleInvoice.discount_percentage / 100 ∧
    staleDiscountInvoice.calculate_totals.discount_amount =
      staleDiscountInvoice.discount_amount :=
  ⟨(C4_discount_amount exampleInvoice).1 (by norm_num [exampleInvoice, defaultInvoice]),
   (C4_discount_amount staleDiscountInvoice).2
     (by norm_num [staleDiscountInvoice, defaultInvoice])⟩


def calculate_totals_spec (inv : Invoice) : Except PyError Invoice :=
  if inv.items.any (fun it => it.quantity ≤ 0 || it.unit_price < 0) then
    .error .validationError
  else .ok inv.calculate_totals

def invalidItemInvoice : Invoice :=
  { defaultInvoice with items := [InvoiceItem.create (-1) 10] }

/-- Counterexample to C5: on an invoice whose single item has quantity -1 the
spec-modelled validating calculation fails, but the code returns normally and
computes subtotal -10 - calculate_totals contains no validation and no raise. -/
theorem C5_no_validation_counterexample :
    calculate_totals_spec invalidItemInvoice = .error .validationError ∧
    invalidItemInvoice.calculate_totalsE = .ok invalidItemInvoice.calculate_totals ∧
    (invalidItemInvoice.calculate_totalsE).isOk = true ∧
    invalidItemInvoice.calculate_totals.subtotal = -10 := by
  refine ⟨?_, rfl, rfl, ?_⟩
  · norm_num [calculate_totals_spec, invalidItemInvoice, defaultInvoice,
      InvoiceItem.create, InvoiceItem.calculate_total]
  · norm_num [invalidItemInvoice, defaultInvoice, Invoice.calculate_totals,
      InvoiceItem.create, InvoiceItem.calculate_total]

/-- C5 amended: the totals calculation itself never fails, whatever the item
values; quantity and price validation exists only in the item mutators, where
update_quantity raises ValueError exactly on a non-positive quantity and
update_unit_price raises ValueError exactly on a negative unit price. -/
theorem C5_validation_elsewhere :
    (∀ inv : Invoice, (inv.calculate_totalsE).isOk = true) ∧
    (∀ q : ℚ, ∀ it : InvoiceItem,
      (InvoiceItem.update_quantity q it = .error .valueError ↔ q ≤ 0)) ∧
    (∀ p : ℚ, ∀ it : InvoiceItem,
      (InvoiceItem.update_unit_price p it = .error .valueError ↔ p < 0)) := by
  refine ⟨fun inv => rfl, fun q it => ?_, fun p it => ?_⟩ <;>
    · constructor
      · intro h
        by_contra hc
        simp [InvoiceItem.update_quantity, InvoiceItem.update_unit_price, hc] at h
      · intro h
        simp [InvoiceItem.update_quantity, InvoiceItem.update_unit_price, h]

def roundHalfUp2 (x : ℚ) : ℚ := (⌊x * 100 + 1 / 2⌋ : ℚ) / 100

def driftInvoice : Invoice :=
  { defaultInvoice with items := [InvoiceItem.create 1 (1 / 10)], vat_rate := 5 }

/-- Counterexample to C6: for one item of quantity 1 at unit price 0.10 with a
5 percent tax rate, calculate_totals() yields total 0.105 (21/200), which is
not a 2-decimal value; round-half-up to 2 decimals would give 0.11, so the
result is not rounded at the point of total computation (or anywhere else). -/
theorem C6_no_rounding_counterexample :
    driftInvoice.calculate_totals.total = 21 / 200 ∧
    roundHalfUp2 (21 / 200) = 11 / 100 ∧
    (21 / 200 : ℚ) ≠ 11 / 100 ∧
    roundHalfUp2 driftInvoice.calculate_totals.total ≠ driftInvoice.calculate_totals.total := by
  have htot : driftInvoice.calculate_totals.total = 21 / 200 := by
    norm_num [driftInvoice, defaultInvoice, Invoice.calculate_totals,
      InvoiceItem.create, InvoiceItem.calculate_total]
  have hround : roundHalfUp2 (21 / 200) = 11 / 100 := by
    have : ((21 : ℚ) / 200) * 100 + 1 / 2 = 11 := by norm_num
    rw [roundHalfUp2, this]
    norm_num
  refine ⟨htot, hround, by norm_num, ?_⟩
  rw [htot, hround]
  norm_num

/-- C6 amended: calculate_totals() performs no rounding whatsoever - the total
is exactly the taxable amount plus the taxable amount times vat_rate over 100
(the source computes with plain Python floats, modelled exactly over the
rationals), and concretely a total of 0.105 survives unrounded. -/
theorem C6_unrounded_totals (inv : Invoice) :
    inv.calculate_totals.total =
      (inv.calculate_totals.subtotal - inv.calculate_totals.discount_amount) +
        (inv.calculate_totals.subtotal - inv.calculate_totals.discount_amount) *
          (inv.vat_rate / 100) ∧
    roundHalfUp2 driftInvoice.calculate_totals.total ≠ driftInvoice.calculate_totals.total := by
  constructor
  · simp [Invoice.calculate_totals]
  · have htot : driftInvoice.calculate_totals.total = 21 / 200 := by
      norm_num [driftInvoice, defaultInvoice, Invoice.calculate_totals,
        InvoiceItem.create, InvoiceItem.calculate_total]
    have hround : roundHalfUp2 (21 / 200) = 11 / 100 := by
      have h11 : ((21 : ℚ) / 200) * 100 + 1 / 2 = 11 := by norm_num
      rw [roundHalfUp2, h11]
      norm_num
    rw [htot, hround]
    norm_num

def sentInvoice : Invoice := { defaultInvoice with status := .SENT, sent_at := some 1 }

/-- Counterexample to C7: send() on an invoice already in SENT status does not
fail with InvalidTransitionError - it returns normally (exception-level view is
ok) and leaves the invoice completely unchanged. -/
theorem C7_send_from_sent_counterexample :
    Invoice.sendE 5 sentInvoice = .ok sentInvoice ∧
    Invoice.sendE 5 sentInvoice ≠ .error .invalidTransition ∧
    sentInvoice.send 5 = sentInvoice := by
  have hsend : sentInvoice.send 5 = sentInvoice := by
    simp [Invoice.send, sentInvoice, defaultInvoice]
  refine ⟨?_, ?_, hsend⟩
  · simp [Invoice.sendE, hsend]
  · simp [Invoice.sendE]

/-- C7 amended: send() on a DRAFT invoice sets the status to SENT and sent_at
to now; on an invoice in any other status (in particular SENT) it is a silent
no-op that changes nothing and raises nothing. -/
theorem C7_send (inv : Invoice) (now : ℤ) :
    (inv.status = .DRAFT →
      inv.send now = { inv with status := .SENT, sent_at := some now }) ∧
    (inv.status ≠ .DRAFT →
      inv.send now = inv ∧ Invoice.sendE now inv = .ok inv) := by
  constructor
  · intro h
    simp [Invoice.send, h]
  · intro h
    have hsend : inv.send now = inv := by simp [Invoice.send, h]
    exact ⟨hsend, by simp [Invoice.sendE, hsend]⟩

/-- Witness for C7 amended at a DRAFT invoice and a SENT invoice. -/
theorem C7_send_witness :
    defaultInvoice.send 2 = { defaultInvoice with status := .SENT, sent_at := some 2 } ∧
    sentInvoice.send 5 = sentInvoice :=
  ⟨(C7_send defaultInvoice 2).1 rfl,
   ((C7_send sentInvoice 5).2 (by simp [sentInvoice, defaultInvoice])).1⟩


def overdueInvoice : Invoice := { defaultInvoice with status := .OVERDUE }

/-- Counterexample to C8: record_reminder_sent() on an OVERDUE invoice leaves
the status at OVERDUE - it does not transition to REMINDER_SENT (the
InvoiceStatus enum of this model set has no such variant) - while appending
the timestamp to the history. -/
theorem C8_status_unchanged_counterexample :
    (overdueInvoice.record_reminder_sent 7).status = .OVERDUE ∧
    (overdueInvoice.record_reminder_sent 7).status = overdueInvoice.status ∧
    (overdueInvoice.record_reminder_sent 7).reminder_sent_at = [7] := by
  refine ⟨rfl, rfl, ?_⟩
  simp [Invoice.record_reminder_sent, overdueInvoice, defaultInvoice]

/-- C8 amended: record_reminder_sent() appends the current time to the
reminder history, whose length therefore grows by exactly one, and leaves the
status unchanged (an OVERDUE invoice stays OVERDUE). -/
theorem C8_record_reminder (inv : Invoice) (now : ℤ) :
    (inv.record_reminder_sent now).status = inv.status ∧
    (inv.record_reminder_sent now).reminder_sent_at = inv.reminder_sent_at ++ [now] ∧
    (inv.record_reminder_sent now).reminder_sent_at.length =
      inv.reminder_sent_at.length + 1 := by
  refine ⟨rfl, rfl, ?_⟩
  simp [Invoice.record_reminder_sent]

def pastDueSentInvoice : Invoice :=
  { defaultInvoice with status := .SENT, due_date := some 0 }

/-- C9: check_overdue() flips a SENT invoice with a due date strictly in the
past to OVERDUE; on an invoice in any other status (DRAFT, PAID, CANCELLED or
already OVERDUE) it is a no-op, and once flipped the invoice is no longer SENT,
so every subsequent call changes nothing - the flip happens exactly once. -/
theorem C9_check_overdue (inv : Invoice) (now d : ℤ) :
    (inv.status = .SENT → inv.due_date = some d → d < now →
      inv.check_overdue now = ({ inv with status := .OVERDUE }, true) ∧
      Invoice.check_overdue now { inv with status := .OVERDUE } =
        ({ inv with status := .OVERDUE }, false)) ∧
    (inv.status ≠ .SENT → inv.check_overdue now = (inv, false)) ∧
    (inv.due_date = some d → ¬ d < now → inv.check_overdue now = (inv, false)) := by
  refine ⟨fun hs hd hlt => ⟨?_, ?_⟩, fun hs => ?_, fun hd hge => ?_⟩
  · simp [Invoice.check_overdue, hs, hd, hlt]
  · simp [Invoice.check_overdue]
  · simp [Invoice.check_overdue, hs]
  · rcases hstat : inv.status <;> simp [Invoice.check_overdue, hstat, hd, hge]

/-- Witness for C9: a past-due SENT invoice flips once and only once, and a
CANCELLED invoice is untouched. -/
theorem C9_check_overdue_witness :
    pastDueSentInvoice.check_overdue 5 =
      ({ pastDueSentInvoice with status := .OVERDUE }, true) ∧
    Invoice.check_overdue 5 { pastDueSentInvoice with status := .OVERDUE } =
      ({ pastDueSentInvoice with status := .OVERDUE }, false) ∧
    cancelledInvoice.check_overdue 5 = (cancelledInvoice, false) :=
  ⟨((C9_check_overdue pastDueSentInvoice 5 0).1 rfl rfl (by omega)).1,
   ((C9_check_overdue pastDueSentInvoice 5 0).1 rfl rfl (by omega)).2,
   (C9_check_overdue cancelledInvoice 5 0).2.1 (by simp [cancelledInvoice, defaultInvoice])⟩

/-- Helper: a list splits among the three outcome counts. -/
theorem length_eq_countP_outcomes (f : Invoice → Outcome) (l : List Invoice) :
    l.length =
      l.countP (fun i => f i == .sentOK) +
      l.countP (fun i => f i == .errored) +
      l.countP (fun i => f i == .skipped) := by
  induction l with
  | nil => simp
  | cons a l ih =>
    simp only [List.length_cons, List.countP_cons, ih]
    cases h : f a <;> simp [h] <;> omega

def alwaysDeliver : Invoice → Bool := fun _ => true

def disabledSettings : ReminderSettings := { enabled := false, reminder_days := [3, 7, 14] }

/-- C10: with reminders enabled, each overdue invoice considered by
process_reminders increments exactly one of the sent, errors or skipped
counters, so processed = sent + errors + skipped; with reminders disabled all
four counters are 0 and disabled is true. -/
theorem C10_counter_invariant (settings : ReminderSettings) (now : ℤ)
    (sendOk : Invoice → Bool) (invoices : List Invoice) :
    (settings.enabled = true →
      (process_reminders settings now sendOk invoices).processed =
        (process_reminders settings now sendOk invoices).sent +
        (process_reminders settings now sendOk invoices).errors +
        (process_reminders settings now sendOk invoices).skipped) ∧
    (settings.enabled = false →
      process_reminders settings now sendOk invoices =
        { processed := 0, sent := 0, errors := 0, skipped := 0, disabled := true }) := by
  constructor
  · intro h
    simp only [process_reminders, h, Bool.true_eq_false, if_false, ite_false, reduceIte]
    exact length_eq_countP_outcomes (processOne settings now sendOk) invoices
  · intro h
    simp [process_reminders, h]

/-- Witness for C10: an enabled run over three invoices and a disabled run. -/
theorem C10_counter_invariant_witness :
    (process_reminders s314 20 alwaysDeliver [overdueBy [], overdueBy [1], paidInvoice]).processed =
      (process_reminders s314 20 alwaysDeliver [overdueBy [], overdueBy [1], paidInvoice]).sent +
      (process_reminders s314 20 alwaysDeliver [overdueBy [], overdueBy [1], paidInvoice]).errors +
      (process_reminders s314 20 alwaysDeliver [overdueBy [], overdueBy [1], paidInvoice]).skipped ∧
    process_reminders disabledSettings 20 alwaysDeliver [overdueBy []] =
      { processed := 0, sent := 0, errors := 0, skipped := 0, disabled := true } :=
  ⟨(C10_counter_invariant s314 20 alwaysDeliver [overdueBy [], overdueBy [1], paidInvoice]).1 rfl,
   (C10_counter_invariant disabledSettings 20 alwaysDeliver [overdueBy []]).2 rfl⟩

end InvoiceApp
